import Mathlib

/-!
Verification of the sweep + parse pipeline of the micro22-sparseloop artifact.

The repository post-processes reports of an external simulator:
`parse_results.py` extracts metrics from stats files and writes a CSV,
`scripts/sweep.py` and `scripts/sweep_dynamic.py` enumerate parameter
sweeps and invoke the simulator per point, and
`scripts/parse_plot_dynamic.py` implements a second report dialect.
Each definition below embeds one piece of that Python code; file reads
are modelled by `Option` arguments (`none` = the file is missing) and
numeric values by `ℚ` (the float computations involved are exact at all
inputs considered here).
-/

namespace Artifact

/-! ## Python character classes (`\d`, `\s`, `[\d.]`) -/

def isPyDigit (c : Char) : Bool := '0' ≤ c && c ≤ '9'

def isPySpace (c : Char) : Bool :=
  c = ' ' || c = '\t' || c = '\n' || c = '\r' || c = '\x0b' || c = '\x0c'

def isDigitDot (c : Char) : Bool := isPyDigit c || c = '.'

/-- Maximal run of characters satisfying `p` (the greedy `p+` of a regex),
returning the run and the remainder. -/
def takeRun (p : Char → Bool) : List Char → List Char × List Char
  | [] => ([], [])
  | c :: cs =>
    if p c then
      let r := takeRun p cs
      (c :: r.1, r.2)
    else ([], c :: cs)

/-- Consume the literal `pat` from the front of the input, returning the rest. -/
def stripLit : List Char → List Char → Option (List Char)
  | [], cs => some cs
  | _ :: _, [] => none
  | p :: ps, c :: cs => if c = p then stripLit ps cs else none

/-! ## The three regex patterns of `extract_metrics_from_stats`
(`parse_results.py` lines 46, 51, 56).  Each `matchXAt` tries the pattern
anchored at the head of its argument and returns the captured group.
`\s+` is matched by a maximal whitespace run followed by the required
continuation; this coincides with the backtracking semantics because the
character after each `\s+` is never itself whitespace, and likewise the
captured classes `\d`/`[\d.]` are disjoint from what follows them. -/

/-- Pattern `Cycles:\s+(\d+)` tried at one position. -/
def matchCyclesAt (s : List Char) : Option (List Char) :=
  match stripLit "Cycles:".data s with
  | none => none
  | some r1 =>
    let sp := takeRun isPySpace r1
    if sp.1.isEmpty then none
    else
      let ds := takeRun isPyDigit sp.2
      if ds.1.isEmpty then none else some ds.1

/-- Pattern `Energy:\s+([\d.]+)\s+uJ` tried at one position. -/
def matchEnergyAt (s : List Char) : Option (List Char) :=
  match stripLit "Energy:".data s with
  | none => none
  | some r1 =>
    let sp := takeRun isPySpace r1
    if sp.1.isEmpty then none
    else
      let ds := takeRun isDigitDot sp.2
      if ds.1.isEmpty then none
      else
        let sp2 := takeRun isPySpace ds.2
        if sp2.1.isEmpty then none
        else
          match stripLit "uJ".data sp2.2 with
          | none => none
          | some _ => some ds.1

/-- Pattern `Utilization:\s+([\d.]+)` tried at one position. -/
def matchUtilAt (s : List Char) : Option (List Char) :=
  match stripLit "Utilization:".data s with
  | none => none
  | some r1 =>
    let sp := takeRun isPySpace r1
    if sp.1.isEmpty then none
    else
      let ds := takeRun isDigitDot sp.2
      if ds.1.isEmpty then none else some ds.1

/-- Python `re.search` without `re.MULTILINE`: try the pattern at every position,
left to right, and return the first capture. -/
def searchFirst (m : List Char → Option (List Char)) : List Char → Option (List Char)
  | [] => m []
  | c :: cs =>
    match m (c :: cs) with
    | some r => some r
    | none => searchFirst m cs

/-- Positions just after a newline, tried left to right. -/
def afterNL (m : List Char → Option (List Char)) : List Char → Option (List Char)
  | [] => none
  | c :: cs =>
    if c = '\n' then
      match m cs with
      | some r => some r
      | none => afterNL m cs
    else afterNL m cs

/-- Python `re.search` with `re.MULTILINE` for a `^`-anchored pattern: try position 0,
then every position following a newline, left to right. -/
def searchML (m : List Char → Option (List Char)) (l : List Char) : Option (List Char) :=
  match m l with
  | some r => some r
  | none => afterNL m l

/-! ## Numeric conversion (`int(...)` and `float(...)`) -/

def digitVal (c : Char) : ℕ := c.toNat - '0'.toNat

/-- Python `int` on a nonempty decimal digit string. -/
def parseNat (ds : List Char) : ℕ := ds.foldl (fun a c => 10 * a + digitVal c) 0

/-- Digit-level part of Python `float` on a token drawn from `[\d.]+`:
it succeeds iff the token has at most one `.` and at least one digit
(`float('1..2')` and `float('.')` raise `ValueError`), returning the
integer part, the fraction digits and the number of fraction digits. -/
def pyFloatParts (s : List Char) : Option (ℕ × ℕ × ℕ) :=
  if s.all isDigitDot ∧ s.count '.' ≤ 1 ∧ s.any isPyDigit then
    let intPart := s.takeWhile (fun c => c ≠ '.')
    let fracPart := (s.dropWhile (fun c => c ≠ '.')).drop 1
    some (parseNat intPart, parseNat fracPart, fracPart.length)
  else none

/-- Python `float` on a token drawn from `[\d.]+`; the value is exact in `ℚ`. -/
def pyFloat (s : List Char) : Option ℚ :=
  (pyFloatParts s).map (fun p => (p.1 : ℚ) + (p.2.1 : ℚ) / (10 : ℚ) ^ p.2.2)

/-! ## `extract_metrics_from_stats` (`parse_results.py` lines 38-64) -/

structure Metrics where
  cycles : Option ℕ
  energy : Option ℚ
  utilization : Option ℚ
deriving Repr, DecidableEq

def Metrics.allAbsent : Metrics := ⟨none, none, none⟩

/-- The utilization step of the `try` block (`parse_results.py` lines 56-58):
`float(...) * 100`.  A `ValueError` from `float` (modelled by `pyFloat = none`)
aborts the block, leaving the record as built so far. -/
def utilStep (m : Metrics) (content : List Char) : Metrics :=
  match searchML matchUtilAt content with
  | none => m
  | some ds =>
    match pyFloat ds with
    | none => m
    | some q => { m with utilization := some (q * 100) }

/-- The `try` block of `extract_metrics_from_stats` (`parse_results.py`
lines 42-58): cycles, then energy (`float(...) * 1_000_000`, uJ → pJ), then
utilization; an exception at any step is caught by the surrounding handler,
which returns the record with the fields assigned before the exception. -/
def extractCore (content : List Char) : Metrics :=
  let m1 : Metrics :=
    match searchFirst matchCyclesAt content with
    | none => Metrics.allAbsent
    | some ds => { Metrics.allAbsent with cycles := some (parseNat ds) }
  match searchML matchEnergyAt content with
  | none => utilStep m1 content
  | some ds =>
    match pyFloat ds with
    | none => m1
    | some q => utilStep { m1 with energy := some (q * 1000000) } content

/-- Function `extract_metrics_from_stats` (`parse_results.py` lines 38-64).  The file
read is modelled by an `Option (List Char)`: `none` models
`FileNotFoundError`, which the source catches (line 60), printing a warning
to stderr; the second component is the stderr log.  All other exceptions are
caught by the generic handler (line 62), so the function always returns. -/
def extract_metrics_from_stats (file : Option (List Char)) : Metrics × List String :=
  match file with
  | none => (Metrics.allAbsent, ["Error: Stats file not found"])
  | some content => (extractCore content, [])

/-! ## `sweep.py` (unstructured_eval_updated, lines 79-131): sweep enumeration -/

/-- The first sweep dimension declared in `sweep.py main` (line 79). -/
def workloads : List String := ["resnet", "alexnet", "mobilenet"]

/-- The second sweep dimension declared in `sweep.py main` (line 80). -/
def densities_A : List ℚ := [1.0, 0.9, 0.7, 0.5, 0.3]

/-- The third sweep dimension declared in `sweep.py main` (line 81). -/
def densities_B : List ℚ := [1.0, 0.4]

/-- The parameter points visited by the nested loops of `sweep.py main`
(lines 84-108): outer loop over workloads, then `A_density`, then
`B_density`, each in list order. -/
def sweepPoints {α β γ : Type} (ws : List α) (da : List β) (db : List γ) :
    List (α × β × γ) :=
  ws.flatMap fun w => da.flatMap fun a => db.map fun b => (w, a, b)

/-- Lexicographic order on parameter points following dimension declaration
order (workload first, then `A_density`, then `B_density`), where each
dimension is compared by its own declared order `r1`/`r2`/`r3`. -/
def lexRel {α β γ : Type} (r1 : α → α → Prop) (r2 : β → β → Prop)
    (r3 : γ → γ → Prop) (p q : α × β × γ) : Prop :=
  r1 p.1 q.1 ∨ (p.1 = q.1 ∧ (r2 p.2.1 q.2.1 ∨ (p.2.1 = q.2.1 ∧ r3 p.2.2 q.2.2)))

/-- The density-override gate of `sweep.py main` (lines 112-117), one
workload fixed: the inner `B_density` loop.  A `KeyError` while overriding
the densities (`hasKeys a b = false`) skips just that pair via `continue`;
other pairs still run. -/
def densityJobsInner {α β : Type} (hasKeys : α → β → Bool) (a : α) :
    List β → List (α × β)
  | [] => []
  | b :: bs =>
    if hasKeys a b then (a, b) :: densityJobsInner hasKeys a bs
    else densityJobsInner hasKeys a bs

/-- The jobs actually launched by the two density loops of `sweep.py main`
(lines 107-131) for one workload's template. -/
def densityJobs {α β : Type} (hasKeys : α → β → Bool) :
    List α → List β → List (α × β)
  | [], _ => []
  | a :: ra, db => densityJobsInner hasKeys a db ++ densityJobs hasKeys ra db

/-! ## `sweep_dynamic.py`: the per-layer loop and exit codes -/

/-- One entry of the `layers` list of the sequence YAML
(`sweep_dynamic.py` lines 140-142, read with `.get`, so missing keys give
`None`). -/
structure LayerEntry where
  name : Option String
  workload : Option String
  sparsity_arch : Option String
deriving Repr, DecidableEq

/-- Python truthiness of `layer.get(...)`: `None` and the empty string are
falsy (`if not all([...])`, line 144). -/
def pyTruthyStr (o : Option String) : Bool :=
  match o with
  | none => false
  | some s => !s.isEmpty

/-- The completeness test of `sweep_dynamic.py main` line 144. -/
def layerComplete (l : LayerEntry) : Bool :=
  pyTruthyStr l.name && pyTruthyStr l.workload && pyTruthyStr l.sparsity_arch

/-- The layer loop of `sweep_dynamic.py main` (lines 139-153): incomplete
entries are skipped with a warning; every complete entry is attempted via
`run_single_timeloop`, whose Boolean outcome (subprocess exit code, missing
workload or arch file) is abstracted as `run`; a `False` outcome is recorded
and the loop continues with the next layer. -/
def sweepLayers (run : LayerEntry → Bool) : List LayerEntry → List (LayerEntry × Bool)
  | [] => []
  | l :: ls =>
    if layerComplete l then (l, run l) :: sweepLayers run ls
    else sweepLayers run ls

/-- The `success_count` accumulation of `sweep_dynamic.py main`
(lines 135, 152-153). -/
def successCount (run : LayerEntry → Bool) : List LayerEntry → ℕ
  | [] => 0
  | l :: ls =>
    (if layerComplete l && run l then 1 else 0) + successCount run ls

/-- The summary reported at `sweep_dynamic.py` line 158:
`Successfully simulated {success_count} out of {total_layers} layers`,
where `total_layers = len(layers)` (line 136). -/
def sweepSummary (run : LayerEntry → Bool) (layers : List LayerEntry) : ℕ × ℕ :=
  (successCount run layers, layers.length)

/-- Exit code of `sweep_dynamic.py main` (lines 162-165): 0 iff every layer
succeeded, 1 otherwise. -/
def sweep_dynamic_exit (succeeded totalLayers : ℕ) : ℕ :=
  if succeeded = totalLayers then 0 else 1

/-- Exit code of `parse_results.py main` (lines 119-211): 1 when the input
directory is missing (line 124); 0 when zero rows were collected (line 194,
after a stderr message); otherwise 0 on a successful CSV write and 1 on an
`IOError` while writing (line 211). -/
def parse_results_exit (inputDirIsDir : Bool) (rows : List (List (String × String)))
    (csvWriteOk : Bool) : ℕ :=
  if !inputDirIsDir then 1
  else if rows.isEmpty then 0
  else if csvWriteOk then 0 else 1

/-! ## The dynamic report dialect (`parse_plot_dynamic.py` lines 18-62) -/

/-- Pattern `^\s*Utilization:\s*([\d.]+)\s*%` tried at one position
(`parse_plot_dynamic.py` line 46). -/
def matchUtilPctAt (s : List Char) : Option (List Char) :=
  let sp0 := takeRun isPySpace s
  match stripLit "Utilization:".data sp0.2 with
  | none => none
  | some r1 =>
    let sp := takeRun isPySpace r1
    let ds := takeRun isDigitDot sp.2
    if ds.1.isEmpty then none
    else
      let sp2 := takeRun isPySpace ds.2
      match stripLit "%".data sp2.2 with
      | none => none
      | some _ => some ds.1

/-- Pattern `^\s*Utilization:\s*([\d.]+)\s*$` tried at one position
(`parse_plot_dynamic.py` line 50).  With `re.MULTILINE`, `$` matches at the
end of the input or just before a newline; after the greedy `\s*` backtracks,
the pattern succeeds exactly when the remaining input is empty or the
whitespace run after the capture reaches a newline. -/
def matchUtilFracAt (s : List Char) : Option (List Char) :=
  let sp0 := takeRun isPySpace s
  match stripLit "Utilization:".data sp0.2 with
  | none => none
  | some r1 =>
    let sp := takeRun isPySpace r1
    let ds := takeRun isDigitDot sp.2
    if ds.1.isEmpty then none
    else
      let sp2 := takeRun isPySpace ds.2
      if sp2.2.isEmpty || sp2.1.contains '\n' then some ds.1 else none

/-- The utilization disambiguation of `parse_plot_dynamic.py` lines 52-56:
a value matched without a `%` sign is scaled by 100 when it lies in
[0, 1.01] (read as a fraction, the 1.01 bound allowing for rounding), and is
kept unscaled otherwise (read as an already-percentage value). -/
def disambiguateUtil (v : ℚ) : ℚ :=
  if 0 ≤ v ∧ v ≤ 101 / 100 then v * 100 else v

/-- The utilization extraction of the dynamic dialect
(`parse_plot_dynamic.py` lines 45-58): first try the `%`-suffixed pattern
(value taken as a percentage as-is), then the bare pattern with the
fraction/percentage disambiguation; a `ValueError` from `float` is caught by
the surrounding handler, leaving the metric absent. -/
def dynUtil (content : List Char) : Option ℚ :=
  match searchML matchUtilPctAt content with
  | some ds => pyFloat ds
  | none =>
    match searchML matchUtilFracAt content with
    | some ds =>
      match pyFloat ds with
      | none => none
      | some v => some (disambiguateUtil v)
    | none => none

/-! ## `sweep.py run_timeloop` (lines 21-71): the overwrite policy (C7) -/

structure FS where
  dirs : List String
  files : List (String × String)
deriving Repr, DecidableEq

def FS.writeFile (fs : FS) (p c : String) : FS := ⟨fs.dirs, (p, c) :: fs.files⟩

def FS.mkdir (fs : FS) (d : String) : FS := ⟨d :: fs.dirs, fs.files⟩

def FS.read (fs : FS) (p : String) : Option String :=
  (fs.files.find? (fun e => e.1 = p)).map (fun e => e.2)

def FS.dirExists (fs : FS) (d : String) : Bool := fs.dirs.contains d

/-- Lines 33-69 of `sweep.py run_timeloop`, after the overwrite gate: copy
the shared ERT/ART files next to the config when their sources exist, dump
the aggregated input YAML, and launch `timeloop-model`, which leaves a log
and (on success) a stats file in the output directory.  The simulator is
abstracted by the contents it writes (`logContent`, `statsContent`). -/
def runTimeloopBody (jobDir inputYaml : String) (ert art : Option String)
    (logContent : String) (statsContent : Option String) (fs : FS) : FS :=
  let fs1 := match ert with
    | some c => fs.writeFile (jobDir ++ "/ERT.yaml") c
    | none => fs
  let fs2 := match art with
    | some c => fs1.writeFile (jobDir ++ "/ART.yaml") c
    | none => fs1
  let fs3 := fs2.writeFile (jobDir ++ "/aggregated_input.yaml") inputYaml
  let fs4 := fs3.writeFile (jobDir ++ "/outputs/timeloop.log") logContent
  match statsContent with
  | some c => fs4.writeFile (jobDir ++ "/outputs/timeloop-model.stats.txt") c
  | none => fs4

/-- Function `run_timeloop` (`sweep.py` lines 21-31): when the output directory
already exists and `OVERWRITE` is false, return immediately — no ERT/ART
copy, no config dump, no simulator launch; otherwise create the directory if
absent and run the body. -/
def run_timeloop (overwrite : Bool) (jobDir inputYaml : String)
    (ert art : Option String) (logContent : String) (statsContent : Option String)
    (fs : FS) : FS :=
  let outputDir := jobDir ++ "/outputs"
  if fs.dirExists outputDir then
    if overwrite then runTimeloopBody jobDir inputYaml ert art logContent statsContent fs
    else fs
  else
    runTimeloopBody jobDir inputYaml ert art logContent statsContent (fs.mkdir outputDir)

/-- The parse pass over a sweep's outputs (`parse_and_plot1.py` lines
112-130): one stats file read per job, handed to a report parser. -/
def assembleTable {ρ : Type} (parse : Option String → ρ) (fs : FS)
    (statsPaths : List String) : List ρ :=
  statsPaths.map (fun p => parse (fs.read p))

/-! ## The CSV write of `parse_results.py main` (lines 175-207, C8) -/

/-- The 12 keys of `combined_data` (`parse_results.py` lines 175-188), in
dict insertion order — this is the CSV header (line 198). -/
def combinedKeys : List String :=
  ["directory", "architecture", "num_PEs", "density_distribution", "sparsity",
   "cycles", "energy", "utilization", "arch_name", "arch_PEs",
   "arch_sparse_support", "mem_size_SMEM"]

/-- The per-directory values feeding one `combined_data` dict, already
rendered to CSV cell strings. -/
structure RowFields where
  directory : String
  architecture : String
  num_PEs : String
  density_distribution : String
  sparsity : String
  cycles : String
  energy : String
  utilization : String
  arch_name : String
  arch_PEs : String
  arch_sparse_support : String
  mem_size_SMEM : String
deriving Repr, DecidableEq

/-- Dict `combined_data` (`parse_results.py` lines 175-188): a dict with exactly
the 12 keys of `combinedKeys`, in insertion order. -/
def mkCombinedRow (r : RowFields) : List (String × String) :=
  [("directory", r.directory), ("architecture", r.architecture),
   ("num_PEs", r.num_PEs), ("density_distribution", r.density_distribution),
   ("sparsity", r.sparsity), ("cycles", r.cycles), ("energy", r.energy),
   ("utilization", r.utilization), ("arch_name", r.arch_name),
   ("arch_PEs", r.arch_PEs), ("arch_sparse_support", r.arch_sparse_support),
   ("mem_size_SMEM", r.mem_size_SMEM)]

/-- Lookup used by `csv.DictWriter`: the row's value under key `k`, or the
default empty `restval` when the key is absent. -/
def rowGet (row : List (String × String)) (k : String) : String :=
  ((row.find? (fun e => e.1 = k)).map (fun e => e.2)).getD ""

/-- The CSV write of `parse_results.py main` (lines 196-207), as the list of
lines written: the header is the first row's key list (line 198); the file
is opened with mode `w` (line 203), which truncates it, so the size test of
line 205 always sees size 0 and the header is written whether or not the
file existed; then `writerows` emits one line per row with the fields in
header order. -/
def writeCsv (fileExistedBefore : Bool) (allData : List (List (String × String))) :
    List (List String) :=
  match allData with
  | [] => []
  | first :: _ =>
    let header := first.map Prod.fst
    let sizeAfterTruncate : ℕ := 0
    let dataLines := allData.map (fun row => header.map (fun k => rowGet row k))
    if !fileExistedBefore || sizeAfterTruncate == 0 then header :: dataLines
    else dataLines

/-! ## CSV round trip (C9).

Modelled from the spec: the CSV serialization itself is performed by the
external `pandas`/`csv` libraries (`to_csv` in `compare_stc_dstc.py` line
156, `read_csv` in `plot_figure15.py` line 112), so no code under `src/`
implements it; per §4.5/§6 of the spec a table is persisted as one
comma-joined line per row, lines joined by newlines, and read back by
splitting on those separators. -/

/-- Modelled from the spec: one CSV line, cells joined by commas. -/
def csvRenderLine (row : List (List Char)) : List Char := [','].intercalate row

/-- Modelled from the spec: CSV export, lines joined by newlines. -/
def csvRender (table : List (List (List Char))) : List Char :=
  ['\n'].intercalate (table.map csvRenderLine)

/-- Modelled from the spec: CSV import, splitting lines on newlines and
cells on commas. -/
def csvParse (content : List Char) : List (List (List Char)) :=
  (content.splitOn '\n').map (fun line => line.splitOn ',')

/-! ## `extract_config_from_arch` (`parse_results.py` lines 66-108, C10) -/

/-- A YAML value as loaded by `yaml.safe_load`. -/
inductive Y where
  | s : String → Y
  | i : Int → Y
  | b : Bool → Y
  | null : Y
  | list : List Y → Y
  | dict : List (String × Y) → Y

/-- Python `d.get(k, default)`: key lookup with a default on a dict;
`AttributeError` on any other receiver. -/
def pyGet (v : Y) (k : String) (dflt : Y) : Except String Y :=
  match v with
  | .dict d => .ok (((d.find? (fun e => e.1 = k)).map (fun e => e.2)).getD dflt)
  | _ => .error "AttributeError"

/-- Python `v[k]` subscripting by a string key: `KeyError` when absent,
`TypeError` on a non-dict receiver. -/
def pySub (v : Y) (k : String) : Except String Y :=
  match v with
  | .dict d =>
    match d.find? (fun e => e.1 = k) with
    | some e => .ok e.2
    | none => .error "KeyError"
  | _ => .error "TypeError"

/-- Python `v[i]` list indexing: `IndexError` out of range, `TypeError` on a
non-list receiver. -/
def pyIndex (v : Y) (i : ℕ) : Except String Y :=
  match v with
  | .list l =>
    match l.get? i with
    | some x => .ok x
    | none => .error "IndexError"
  | _ => .error "TypeError"

/-- Python `for item in v`: lists iterate their elements, dicts their keys;
anything else here raises `TypeError`. -/
def pyIter (v : Y) : Except String (List Y) :=
  match v with
  | .list l => .ok l
  | .dict d => .ok (d.map (fun e => Y.s e.1))
  | _ => .error "TypeError"

/-- Python `==` against a string literal: only an equal string compares
true; values of other types compare unequal without raising. -/
def yEqStr (v : Y) (t : String) : Bool :=
  match v with
  | .s u => u = t
  | _ => false

/-- Python `k in v`: key containment for dicts, element equality for lists,
substring test for strings, `TypeError` otherwise. -/
def pyIn (k : String) (v : Y) : Except String Bool :=
  match v with
  | .dict d => .ok (d.any (fun e => e.1 = k))
  | .list l => .ok (l.any (fun x => yEqStr x k))
  | .s u => .ok (decide (k.data <:+: u.data))
  | _ => .error "TypeError"

/-- Python truthiness of a YAML value. -/
def pyTruthy (v : Y) : Bool :=
  match v with
  | .null => false
  | .b bv => bv
  | .i n => n != 0
  | .s u => !u.isEmpty
  | .list l => !l.isEmpty
  | .dict d => !d.isEmpty

/-- Python `next((item for item in items if pred item), dflt)` where the generator
additionally maps a matching item through `f`; an exception inside the
generator propagates. -/
def pyNextMap (pred : Y → Except String Bool) (f : Y → Except String Y)
    (dflt : Y) : List Y → Except String Y
  | [] => .ok dflt
  | x :: xs => do
    let bv ← pred x
    if bv then f x else pyNextMap pred f dflt xs

/-- Python `next((item for item in items if pred item), None)`. -/
def pyNext (pred : Y → Except String Bool) (items : List Y) : Except String Y :=
  pyNextMap pred .ok .null items

/-- Test `item['name'] == target` (may raise from the subscript). -/
def nameEq (target : String) (item : Y) : Except String Bool := do
  let n ← pySub item "name"
  pure (yEqStr n target)

/-- Test `sub in item['name']` (string containment; raises from the subscript or
when `item['name']` is not a string). -/
def nameContains (sub : String) (item : Y) : Except String Bool := do
  let n ← pySub item "name"
  match n with
  | .s u => pure (decide (sub.data <:+: u.data))
  | _ => .error "TypeError"

/-- Lines 77-80 of `parse_results.py`: find the `system` subtree, and inside
it the `SM` subtree; `Y.null` when either `next` defaults. -/
def findSubtreeSM (arch : Y) : Except String Y := do
  let st ← pyGet arch "subtree" (.list [])
  let items ← pyIter st
  let system ← pyNext (nameEq "system") items
  if pyTruthy system then do
    let st2 ← pyGet system "subtree" (.list [])
    let items2 ← pyIter st2
    pyNext (nameEq "SM") items2
  else pure .null

/-- Lines 81-87 of `parse_results.py`: navigate to the PE item and, when the
`instances` gate passes, the `MAC` unit's `instances` attribute.  `none`
means the gate failed and `config['arch_PEs']` is not assigned. -/
def peValue (sm : Y) : Except String (Option Y) := do
  let st3 ← pyGet sm "subtree" (.list [])
  let items3 ← pyIter st3
  let subpart ← pyNext (nameContains "Subpartition") items3
  if pyTruthy subpart then do
    let st4 ← pyGet subpart "subtree" (.list [])
    let items4 ← pyIter st4
    let pe ← pyNext (nameContains "PE") items4
    if pyTruthy pe then do
      let loc ← pyGet pe "local" (.list [.dict []])
      let e1 ← pyIndex loc 1
      let attrs ← pyGet e1 "attributes" (.dict [])
      let hasInst ← pyIn "instances" attrs
      if hasInst then do
        let loc2 ← pyGet pe "local" (.list [.dict []])
        let items5 ← pyIter loc2
        let macAttrs ← pyNextMap (nameEq "MAC") (fun l => pySub l "attributes")
          (.dict []) items5
        let inst ← pyGet macAttrs "instances" .null
        pure (some inst)
      else pure none
    else pure none
  else pure none

/-- Lines 90-92 of `parse_results.py`: the SMEM item's
`data_storage_depth`; `none` when the gate fails. -/
def smemValue (sm : Y) : Except String (Option Y) := do
  let loc ← pyGet sm "local" (.list [])
  let items ← pyIter loc
  let smem ← pyNext (nameEq "SMEM") items
  if pyTruthy smem then do
    let hasAttrs ← pyIn "attributes" smem
    if hasAttrs then do
      let attrs ← pySub smem "attributes"
      let d ← pyGet attrs "data_storage_depth" .null
      pure (some d)
    else pure none
  else pure none

/-- The `json.dumps(arch_data)` call on line 98 of `parse_results.py`.  The
file imports only `argparse, yaml, os, sys, csv, re` (lines 1-6); `json` is
never imported, so evaluating this expression raises `NameError`
unconditionally. -/
def jsonDumpsLine : Except String Y := .error "NameError: name json is not defined"

/-- The `config` dict of `extract_config_from_arch` (line 68); `Y.null`
models Python `None`. -/
structure ArchConfig where
  arch_name : Y
  arch_PEs : Y
  arch_sparse_support : Y
  mem_size_SMEM : Y

/-- The `try` block of `extract_config_from_arch` (`parse_results.py` lines
69-99) in exception-passing style: the first exception aborts the rest of
the block and the handlers (lines 102-107) return the `config` dict with the
fields assigned before the exception.  The sparse-support assignment (line
99) sits after the `json.dumps` call (line 98), which always raises. -/
def extract_config_body (arch_data : Y) : ArchConfig :=
  let c0 : ArchConfig := ⟨.null, .null, .null, .null⟩
  match pyGet arch_data "architecture" (.dict []) with
  | .error _ => c0
  | .ok arch =>
  match pyGet arch "name" .null with
  | .error _ => c0
  | .ok nm =>
  let c1 : ArchConfig := { c0 with arch_name := nm }
  match findSubtreeSM arch with
  | .error _ => c1
  | .ok sm =>
  if pyTruthy sm then
    match peValue sm with
    | .error _ => c1
    | .ok vopt =>
    let c2 : ArchConfig :=
      match vopt with
      | none => c1
      | some v => { c1 with arch_PEs := v }
    match smemValue sm with
    | .error _ => c2
    | .ok wopt =>
    let c3 : ArchConfig :=
      match wopt with
      | none => c2
      | some w => { c2 with mem_size_SMEM := w }
    match jsonDumpsLine with
    | .error _ => c3
    | .ok _ => { c3 with arch_sparse_support := .b true }
  else
    match jsonDumpsLine with
    | .error _ => c1
    | .ok _ => { c1 with arch_sparse_support := .b true }

/-- Function `extract_config_from_arch` (`parse_results.py` lines 66-108): `none`
models `FileNotFoundError` (line 102), `some (.error e)` a `yaml.YAMLError`
(line 104); both handlers return the all-`None` config. -/
def extract_config_from_arch (file : Option (Except String Y)) : ArchConfig :=
  match file with
  | none => ⟨.null, .null, .null, .null⟩
  | some (.error _) => ⟨.null, .null, .null, .null⟩
  | some (.ok arch_data) => extract_config_body arch_data

/-- A well-formed architecture YAML in the layout `extract_config_from_arch`
expects: `architecture → subtree[system] → subtree[SM]` with a
`Subpartition`/`PE`/`MAC` chain and an `SMEM` local with a
`data_storage_depth` attribute. -/
def sampleArchY : Y :=
  .dict [("architecture", .dict
    [("name", .s "SIGMA"),
     ("subtree", .list [.dict
       [("name", .s "system"),
        ("subtree", .list [.dict
          [("name", .s "SM"),
           ("subtree", .list [.dict
             [("name", .s "Subpartition0"),
              ("subtree", .list [.dict
                [("name", .s "PE"),
                 ("local", .list
                   [.dict [("name", .s "reg"), ("attributes", .dict [])],
                    .dict [("name", .s "MAC"),
                           ("attributes", .dict [("instances", .i 64)])]])]])]]),
           ("local", .list [.dict
             [("name", .s "SMEM"),
              ("attributes", .dict [("data_storage_depth", .i 1024)])]])]])]])])]

/-! ## Lemmas about the searchers -/

lemma stripLit_take : ∀ {p s r : List Char}, stripLit p s = some r → s.take p.length = p := by
  intro p
  induction p with
  | nil => intro s r _; rfl
  | cons x xs ih =>
    intro s r h
    cases s with
    | nil => simp [stripLit] at h
    | cons c cs =>
      rw [stripLit] at h
      by_cases hc : c = x
      · subst hc
        simp only [if_pos rfl] at h
        simp [List.take_succ_cons, ih h]
      · simp [hc] at h

lemma matchCyclesAt_take {s ds : List Char} (h : matchCyclesAt s = some ds) :
    s.take "Cycles:".data.length = "Cycles:".data := by
  rcases hl : stripLit "Cycles:".data s with _ | r
  · rw [matchCyclesAt, hl] at h; exact absurd h (by simp)
  · exact stripLit_take hl

lemma matchEnergyAt_take {s ds : List Char} (h : matchEnergyAt s = some ds) :
    s.take "Energy:".data.length = "Energy:".data := by
  rcases hl : stripLit "Energy:".data s with _ | r
  · rw [matchEnergyAt, hl] at h; exact absurd h (by simp)
  · exact stripLit_take hl

lemma matchUtilAt_take {s ds : List Char} (h : matchUtilAt s = some ds) :
    s.take "Utilization:".data.length = "Utilization:".data := by
  rcases hl : stripLit "Utilization:".data s with _ | r
  · rw [matchUtilAt, hl] at h; exact absurd h (by simp)
  · exact stripLit_take hl

/-- If the pattern matches at the start of `b` and fails at every strictly
earlier position of `a ++ b`, the unanchored search finds the match at `b`. -/
lemma searchFirst_eq_of {m : List Char → Option (List Char)} {b v : List Char}
    (a : List Char) (hm : m b = some v)
    (hfail : ∀ s, s <:+ a ++ b → b.length < s.length → m s = none) :
    searchFirst m (a ++ b) = some v := by
  induction a with
  | nil =>
    cases b with
    | nil => simpa [searchFirst] using hm
    | cons c cs => simp only [List.nil_append, searchFirst]; rw [hm]
  | cons c cs ih =>
    have h1 : m (c :: (cs ++ b)) = none := by
      refine hfail _ List.suffix_rfl ?_
      simp only [List.cons_append, List.length_cons, List.length_append]; omega
    rw [List.cons_append, searchFirst, h1]
    exact ih (fun s hs hlen => hfail s (hs.trans (List.suffix_cons c (cs ++ b))) hlen)

/-- If the pattern matches at the line start `b` and fails at every strictly
earlier position, scanning the line starts after each newline finds it. -/
lemma afterNL_eq_of {m : List Char → Option (List Char)} {b v : List Char}
    (a : List Char) (hm : m b = some v)
    (hfail : ∀ s, s <:+ a ++ '\n' :: b → b.length < s.length → m s = none) :
    afterNL m (a ++ '\n' :: b) = some v := by
  induction a with
  | nil => simp [afterNL, hm]
  | cons c cs ih =>
    have hnext : ∀ s, s <:+ cs ++ '\n' :: b → b.length < s.length → m s = none :=
      fun s hs hlen => hfail s (hs.trans (List.suffix_cons c (cs ++ '\n' :: b))) hlen
    rw [List.cons_append, afterNL]
    by_cases hc : c = '\n'
    · have h1 : m (cs ++ '\n' :: b) = none := by
        refine hnext _ List.suffix_rfl ?_
        simp only [List.length_cons, List.length_append]; omega
      rw [if_pos hc, h1]
      exact ih hnext
    · rw [if_neg hc]
      exact ih hnext

lemma searchML_eq_head {m : List Char → Option (List Char)} {l v : List Char}
    (hm : m l = some v) : searchML m l = some v := by
  rw [searchML, hm]

lemma searchML_eq_of {m : List Char → Option (List Char)} {b v : List Char}
    (a : List Char) (hm : m b = some v)
    (hfail : ∀ s, s <:+ a ++ '\n' :: b → b.length < s.length → m s = none) :
    searchML m (a ++ '\n' :: b) = some v := by
  have h0 : m (a ++ '\n' :: b) = none := by
    refine hfail _ List.suffix_rfl ?_
    simp only [List.length_cons, List.length_append]; omega
  rw [searchML, h0]
  exact afterNL_eq_of a hm hfail

/-! ## Matching the canonical report lines -/

lemma matchCyclesAt_canon (sc : List Char) (hsc : sc = [] ∨ sc.head? = some '\n') :
    matchCyclesAt ("Cycles: 12345".data ++ sc) = some "12345".data := by
  rcases hsc with h | h
  · subst h; rfl
  · cases sc with
    | nil => rfl
    | cons c t =>
      simp only [List.head?_cons, Option.some_inj] at h
      subst h; rfl

lemma matchEnergyAt_canon (se : List Char) :
    matchEnergyAt ("Energy: 0.002 uJ".data ++ se) = some "0.002".data := rfl

lemma matchUtilAt_canon (su : List Char) (hsu : su = [] ∨ su.head? = some '\n') :
    matchUtilAt ("Utilization: 0.73".data ++ su) = some "0.73".data := by
  rcases hsu with h | h
  · subst h; rfl
  · cases su with
    | nil => rfl
    | cons c t =>
      simp only [List.head?_cons, Option.some_inj] at h
      subst h; rfl

/-- C1: for every report file whose content contains the line-anchored fields
`Cycles: 12345`, `Energy: 0.002 uJ` and `Utilization: 0.73` — and no other
occurrence of the `Cycles:` / `Energy:` / `Utilization:` keys — metric
extraction returns cycles `12345` parsed as an integer, energy `2000`
(microjoules × 1e6 = picojoules) and utilization `73` (fraction × 100 =
percent).  The three fields may sit anywhere in the file: each hypothesis
pair exhibits the field's line (preceded by a newline or the start of file,
followed by a newline or the end of file) and states that the key occurs
nowhere else. -/
theorem extract_metrics_canonical_report
    (content pc sc pe se pu su : List Char)
    (hC1 : content = pc ++ "Cycles: 12345".data ++ sc)
    (hsc : sc = [] ∨ sc.head? = some '\n')
    (hE1 : content = pe ++ "Energy: 0.002 uJ".data ++ se)
    (hpe : pe = [] ∨ ∃ pe0, pe = pe0 ++ ['\n'])
    (hU1 : content = pu ++ "Utilization: 0.73".data ++ su)
    (hpu : pu = [] ∨ ∃ pu0, pu = pu0 ++ ['\n'])
    (hsu : su = [] ∨ su.head? = some '\n')
    (hOnlyC : ∀ s ∈ content.tails,
      s.take "Cycles:".data.length = "Cycles:".data → s = "Cycles: 12345".data ++ sc)
    (hOnlyE : ∀ s ∈ content.tails,
      s.take "Energy:".data.length = "Energy:".data → s = "Energy: 0.002 uJ".data ++ se)
    (hOnlyU : ∀ s ∈ content.tails,
      s.take "Utilization:".data.length = "Utilization:".data →
        s = "Utilization: 0.73".data ++ su) :
    extract_metrics_from_stats (some content) =
      ({ cycles := some 12345, energy := some 2000, utilization := some 73 }, []) := by
  -- cycles: unanchored search finds the unique `Cycles:` occurrence
  have hsearchC : searchFirst matchCyclesAt content = some "12345".data := by
    have hfail : ∀ s, s <:+ pc ++ ("Cycles: 12345".data ++ sc) →
        ("Cycles: 12345".data ++ sc).length < s.length → matchCyclesAt s = none := by
      intro s hs hlen
      rcases hms : matchCyclesAt s with _ | ds
      · rfl
      · exfalso
        have hpre := matchCyclesAt_take hms
        have hs' : s <:+ content := by rw [hC1, List.append_assoc]; exact hs
        have := hOnlyC s ((List.mem_tails _ _).mpr hs') hpre
        rw [this] at hlen
        omega
    rw [hC1, List.append_assoc]
    exact searchFirst_eq_of pc (matchCyclesAt_canon sc hsc) hfail
  -- energy: multiline-anchored search finds the unique `Energy:` line
  have hsearchE : searchML matchEnergyAt content = some "0.002".data := by
    have hfail : ∀ s, s <:+ content →
        ("Energy: 0.002 uJ".data ++ se).length < s.length → matchEnergyAt s = none := by
      intro s hs hlen
      rcases hms : matchEnergyAt s with _ | ds
      · rfl
      · exfalso
        have hpre := matchEnergyAt_take hms
        have := hOnlyE s ((List.mem_tails _ _).mpr hs) hpre
        rw [this] at hlen
        omega
    rcases hpe with h | ⟨pe0, h⟩
    · subst h
      rw [hE1, List.nil_append]
      exact searchML_eq_head (matchEnergyAt_canon se)
    · have hc' : content = pe0 ++ '\n' :: ("Energy: 0.002 uJ".data ++ se) := by
        rw [hE1, h]
        simp [List.append_assoc]
      rw [hc']
      refine searchML_eq_of pe0 (matchEnergyAt_canon se) ?_
      intro s hs hlen
      exact hfail s (by rw [hc']; exact hs) hlen
  -- utilization: multiline-anchored search finds the unique `Utilization:` line
  have hsearchU : searchML matchUtilAt content = some "0.73".data := by
    have hfail : ∀ s, s <:+ content →
        ("Utilization: 0.73".data ++ su).length < s.length → matchUtilAt s = none := by
      intro s hs hlen
      rcases hms : matchUtilAt s with _ | ds
      · rfl
      · exfalso
        have hpre := matchUtilAt_take hms
        have := hOnlyU s ((List.mem_tails _ _).mpr hs) hpre
        rw [this] at hlen
        omega
    rcases hpu with h | ⟨pu0, h⟩
    · subst h
      rw [hU1, List.nil_append]
      exact searchML_eq_head (matchUtilAt_canon su hsu)
    · have hc' : content = pu0 ++ '\n' :: ("Utilization: 0.73".data ++ su) := by
        rw [hU1, h]
        simp [List.append_assoc]
      rw [hc']
      refine searchML_eq_of pu0 (matchUtilAt_canon su hsu) ?_
      intro s hs hlen
      exact hfail s (by rw [hc']; exact hs) hlen
  -- assemble the record
  have hpn : parseNat "12345".data = 12345 := by decide
  have hfe : pyFloatParts "0.002".data = some (0, 2, 3) := by decide
  have hfu : pyFloatParts "0.73".data = some (0, 73, 2) := by decide
  simp only [extract_metrics_from_stats, extractCore, utilStep, hsearchC, hsearchE,
    hsearchU, hpn, pyFloat, hfe, hfu, Option.map_some]
  norm_num

/-- Witness for C1 at the canonical three-line report text. -/
theorem extract_metrics_canonical_report_witness :
    extract_metrics_from_stats
      (some "Cycles: 12345\nEnergy: 0.002 uJ\nUtilization: 0.73\n".data) =
      ({ cycles := some 12345, energy := some 2000, utilization := some 73 }, []) :=
  extract_metrics_canonical_report
    "Cycles: 12345\nEnergy: 0.002 uJ\nUtilization: 0.73\n".data
    [] "\nEnergy: 0.002 uJ\nUtilization: 0.73\n".data
    "Cycles: 12345\n".data "\nUtilization: 0.73\n".data
    "Cycles: 12345\nEnergy: 0.002 uJ\n".data "\n".data
    (by decide) (by decide) (by decide)
    (Or.inr ⟨"Cycles: 12345".data, by decide⟩)
    (by decide)
    (Or.inr ⟨"Cycles: 12345\nEnergy: 0.002 uJ".data, by decide⟩)
    (by decide) (by decide) (by decide) (by decide)

/-! ## The sweep enumeration (C2) -/

lemma sweepPoints_eq_product {α β γ : Type} (ws : List α) (da : List β) (db : List γ) :
    sweepPoints ws da db = ws ×ˢ (da ×ˢ db) := by
  simp only [sweepPoints, SProd.sprod, List.product, List.map_flatMap, List.map_map,
    Function.comp_def]

/-- C2: the nested sweep loops enumerate exactly the full cross-product of
the declared dimensions: the number of points is the product of the
dimension sizes, a point is enumerated iff each coordinate is a declared
value, each point appears exactly once (when the dimension value lists are
duplicate-free), and the enumeration is sorted lexicographically by
dimension declaration order, each dimension in its declared value order. -/
theorem sweep_cross_product {α β γ : Type} [DecidableEq α] [DecidableEq β] [DecidableEq γ]
    (ws : List α) (da : List β) (db : List γ)
    (r1 : α → α → Prop) (r2 : β → β → Prop) (r3 : γ → γ → Prop)
    (hw : ws.Nodup) (ha : da.Nodup) (hb : db.Nodup)
    (hr1 : ws.Pairwise r1) (hr2 : da.Pairwise r2) (hr3 : db.Pairwise r3) :
    (sweepPoints ws da db).length = ws.length * da.length * db.length ∧
    (∀ w a b, (w, a, b) ∈ sweepPoints ws da db ↔ w ∈ ws ∧ a ∈ da ∧ b ∈ db) ∧
    (sweepPoints ws da db).Nodup ∧
    (sweepPoints ws da db).Pairwise (lexRel r1 r2 r3) := by
  have hnd : (sweepPoints ws da db).Nodup := by
    rw [sweepPoints_eq_product]
    exact hw.product (ha.product hb)
  refine ⟨?_, ?_, ?_, ?_⟩
  · rw [sweepPoints_eq_product, List.length_product, List.length_product, mul_assoc]
  · intro w a b
    rw [sweepPoints_eq_product]
    simp [List.mem_product]
  · exact hnd
  · rw [sweepPoints, List.pairwise_flatMap]
    constructor
    · intro w _
      rw [List.pairwise_flatMap]
      constructor
      · intro a _
        rw [List.pairwise_map]
        exact hr3.imp fun h => Or.inr ⟨rfl, Or.inr ⟨rfl, h⟩⟩
      · refine hr2.imp ?_
        intro a a' h x hx y hy
        obtain ⟨b, _, rfl⟩ := List.mem_map.mp hx
        obtain ⟨b', _, rfl⟩ := List.mem_map.mp hy
        exact Or.inr ⟨rfl, Or.inl h⟩
    · refine hr1.imp ?_
      intro w w' h x hx y hy
      obtain ⟨a, _, hx2⟩ := List.mem_flatMap.mp hx
      obtain ⟨b, _, rfl⟩ := List.mem_map.mp hx2
      obtain ⟨a', _, hy2⟩ := List.mem_flatMap.mp hy
      obtain ⟨b', _, rfl⟩ := List.mem_map.mp hy2
      exact Or.inl h

/-- Witness for C2 at the dimensions declared in `sweep.py`
(3 workloads × 5 A-densities × 2 B-densities = 30 points). -/
theorem sweep_cross_product_witness :
    (sweepPoints workloads densities_A densities_B).length = 30 ∧
    (sweepPoints workloads densities_A densities_B).Pairwise
      (lexRel (fun x y => workloads.indexOf x < workloads.indexOf y)
        (· > ·) (· > ·)) := by
  have h := sweep_cross_product workloads densities_A densities_B
    (fun x y => workloads.indexOf x < workloads.indexOf y) (· > ·) (· > ·)
    (by decide)
    (by norm_num [densities_A, List.nodup_cons])
    (by norm_num [densities_B, List.nodup_cons])
    (by decide)
    (by norm_num [densities_A, List.pairwise_cons])
    (by norm_num [densities_B, List.pairwise_cons])
  exact ⟨by rw [h.1]; rfl, h.2.2.2⟩

/-! ## Failure isolation in the sweep loops (C5) -/

/-- C5: per-point failures are isolated.  First conjunct: the layer loop of
`sweep_dynamic.py` attempts every complete layer entry in order and records
each one's Boolean outcome — the attempted sequence is
`layers.filter layerComplete` no matter which points fail, so a failed
invocation never stops subsequent points.  Second conjunct: the final
summary reports the number of succeeded points out of the total.  Third
conjunct: in `sweep.py`, a density pair whose override key is missing is
skipped (`continue`) and the launched jobs are exactly the key-complete
pairs of the full cross-product, in order. -/
theorem sweep_point_failure_isolation {α β : Type}
    (run : LayerEntry → Bool) (layers : List LayerEntry)
    (hasKeys : α → β → Bool) (da : List α) (db : List β) :
    sweepLayers run layers =
      (layers.filter (fun l => layerComplete l)).map (fun l => (l, run l)) ∧
    sweepSummary run layers =
      (((sweepLayers run layers).filter (fun r => r.2)).length, layers.length) ∧
    densityJobs hasKeys da db =
      (da.flatMap fun a => db.map fun b => (a, b)).filter
        (fun p => hasKeys p.1 p.2) := by
  refine ⟨?_, ?_, ?_⟩
  · induction layers with
    | nil => rfl
    | cons l ls ih =>
      by_cases hl : layerComplete l
      · simp [sweepLayers, List.filter_cons, hl, ih]
      · simp [sweepLayers, List.filter_cons, hl, ih]
  · have hcount : ∀ ls : List LayerEntry,
        successCount run ls = ((sweepLayers run ls).filter (fun r => r.2)).length := by
      intro ls
      induction ls with
      | nil => rfl
      | cons l t ih =>
        by_cases hl : layerComplete l
        · by_cases hr : run l
          · simp only [successCount, sweepLayers, hl, hr, if_pos, List.filter_cons,
              Bool.and_self, if_true, List.length_cons, ih]
            omega
          · simp [successCount, sweepLayers, hl, hr, List.filter_cons, ih]
        · simp [successCount, sweepLayers, hl, ih]
    rw [sweepSummary, hcount]
  · induction da with
    | nil => rfl
    | cons a ra ih =>
      have hinner : ∀ bs : List β,
          densityJobsInner hasKeys a bs =
            (bs.map fun b => (a, b)).filter (fun p => hasKeys p.1 p.2) := by
        intro bs
        induction bs with
        | nil => rfl
        | cons b t ihb =>
          by_cases hk : hasKeys a b
          · simp [densityJobsInner, hk, List.filter_cons, ihb]
          · simp [densityJobsInner, hk, List.filter_cons, ihb]
      simp [densityJobs, List.flatMap_cons, List.filter_append, hinner, ih]

/-! ## Exit codes (C4) -/

/-- Counterexample to C4 as stated: with an existing input directory and an
empty collected-row list, `parse_results.py main` reaches line 194 and calls
`sys.exit(0)`, not `sys.exit(1)`; and `sweep_dynamic.py` exits 1 when 1 of 2
layers succeeded even though rows were produced, so its exit code tracks
"all points succeeded", not "any rows produced". -/
theorem parse_results_exit_zero_rows_cex :
    parse_results_exit true [] true = 0 ∧ parse_results_exit true [] true ≠ 1 ∧
    sweep_dynamic_exit 1 2 = 1 := by decide

/-- C4 (amended): the result-parsing entry point exits 1 when the input
directory is missing and when the CSV write fails, exits 0 on full success,
but also exits 0 when the entire run collects zero rows (only a stderr
message is printed); `sweep_dynamic.py`'s exit code is 0 iff every point
succeeded. -/
theorem parse_results_exit_codes (rows : List (List (String × String)))
    (ok : Bool) (s t : ℕ) (hrows : rows ≠ []) :
    parse_results_exit false rows ok = 1 ∧
    parse_results_exit true [] ok = 0 ∧
    parse_results_exit true rows true = 0 ∧
    parse_results_exit true rows false = 1 ∧
    (sweep_dynamic_exit s t = 0 ↔ s = t) := by
  have hne : rows.isEmpty = false := by
    cases rows with
    | nil => exact absurd rfl hrows
    | cons r rs => rfl
  refine ⟨rfl, rfl, ?_, ?_, ?_⟩
  · simp [parse_results_exit, hne]
  · simp [parse_results_exit, hne]
  · rw [sweep_dynamic_exit]
    by_cases h : s = t
    · simp [h]
    · simp [h]

/-- Witness for C4 (amended) at a one-row table. -/
theorem parse_results_exit_codes_witness :
    parse_results_exit true [[("directory", "run1")]] true = 0 ∧
    parse_results_exit false [[("directory", "run1")]] true = 1 :=
  ⟨(parse_results_exit_codes [[("directory", "run1")]] true 0 0 (by decide)).2.2.1,
   (parse_results_exit_codes [[("directory", "run1")]] true 0 0 (by decide)).1⟩

/-! ## Missing report file (C3) -/

/-- C3: for a missing report file, metric extraction returns a record with
all three metrics absent and a warning on the log; the function returns
normally (the `FileNotFoundError` is caught inside it), so no exception
escapes. -/
theorem extract_metrics_missing_file :
    extract_metrics_from_stats none =
      (Metrics.allAbsent, ["Error: Stats file not found"]) ∧
    (extract_metrics_from_stats none).1.cycles = none ∧
    (extract_metrics_from_stats none).1.energy = none ∧
    (extract_metrics_from_stats none).1.utilization = none ∧
    (extract_metrics_from_stats none).2 ≠ [] :=
  ⟨rfl, rfl, rfl, rfl, by decide⟩

/-! ## Utilization disambiguation in the dynamic dialect (C6) -/

/-- C6: the dynamic dialect resolves fraction-versus-percentage utilization
by one fixed rule.  For a nonnegative parsed value: any value up to 1.01 —
including exactly 1.0 — is treated as a fraction and scaled by 100, while a
value above 1.01 is treated as an already-percentage value and left
unscaled; and when the `%`-suffixed pattern is absent, `dynUtil` applies
exactly this rule to the value captured by the bare pattern. -/
theorem util_disambiguation_rule (v : ℚ) (h0 : 0 ≤ v) :
    (v ≤ 101 / 100 → disambiguateUtil v = v * 100) ∧
    (101 / 100 < v → disambiguateUtil v = v) ∧
    disambiguateUtil 1 = 100 ∧
    (∀ content ds, searchML matchUtilPctAt content = none →
      searchML matchUtilFracAt content = some ds → pyFloat ds = some v →
      dynUtil content = some (disambiguateUtil v)) := by
  refine ⟨?_, ?_, ?_, ?_⟩
  · intro h1
    rw [disambiguateUtil, if_pos ⟨h0, h1⟩]
  · intro h1
    rw [disambiguateUtil, if_neg (fun hc => absurd hc.2 (not_le.mpr h1))]
  · rw [disambiguateUtil, if_pos (by norm_num)]
    norm_num
  · intro content ds hpct hfrac hv
    simp only [dynUtil, hpct, hfrac, hv]

/-- Witness for C6 at the boundary value 1.0: it is scaled to 100%. -/
theorem util_disambiguation_rule_witness : disambiguateUtil 1 = 1 * 100 :=
  (util_disambiguation_rule 1 (by norm_num)).1 (by norm_num)

/-! ## Overwrite policy (C7) -/

/-- C7: re-running a point with `OVERWRITE = False` on an existing output
directory leaves the filesystem exactly as it was — no ERT/ART copy, no
config dump, no simulator launch — and therefore any result table later
assembled from the stored reports is unchanged. -/
theorem overwrite_false_skips {ρ : Type} (jobDir inputYaml : String)
    (ert art : Option String) (logContent : String) (statsContent : Option String)
    (fs : FS) (parse : Option String → ρ) (statsPaths : List String)
    (h : fs.dirExists (jobDir ++ "/outputs") = true) :
    run_timeloop false jobDir inputYaml ert art logContent statsContent fs = fs ∧
    assembleTable parse
      (run_timeloop false jobDir inputYaml ert art logContent statsContent fs)
      statsPaths = assembleTable parse fs statsPaths := by
  have h1 : run_timeloop false jobDir inputYaml ert art logContent statsContent fs = fs := by
    rw [run_timeloop]
    simp [h]
  exact ⟨h1, by rw [h1]⟩

/-- Witness for C7 at a one-job filesystem holding a prior report. -/
theorem overwrite_false_skips_witness :
    run_timeloop false "outputs/resnet_B_1.0-A_1.0" "aggregated" none none "log" none
      ⟨["outputs/resnet_B_1.0-A_1.0/outputs"],
       [("outputs/resnet_B_1.0-A_1.0/outputs/timeloop-model.stats.txt", "Cycles: 42\n")]⟩ =
      ⟨["outputs/resnet_B_1.0-A_1.0/outputs"],
       [("outputs/resnet_B_1.0-A_1.0/outputs/timeloop-model.stats.txt", "Cycles: 42\n")]⟩ :=
  (overwrite_false_skips "outputs/resnet_B_1.0-A_1.0" "aggregated" none none "log" none
    ⟨["outputs/resnet_B_1.0-A_1.0/outputs"],
     [("outputs/resnet_B_1.0-A_1.0/outputs/timeloop-model.stats.txt", "Cycles: 42\n")]⟩
    (fun o => o) ["outputs/resnet_B_1.0-A_1.0/outputs/timeloop-model.stats.txt"]
    (by decide)).1

/-! ## CSV export header and key set (C8) -/

/-- C8: for a non-empty result table, the CSV export writes the header row
derived from the first row's key set first — the `open(..., 'w')` truncation
makes the size test always pass, so this holds whether or not the output
file already existed — and every data row carries exactly that key set. -/
theorem csv_header_and_key_set (existed : Bool) (rs : List RowFields)
    (h : rs ≠ []) :
    writeCsv existed (rs.map mkCombinedRow) =
      combinedKeys ::
        rs.map (fun r => combinedKeys.map (fun k => rowGet (mkCombinedRow r) k)) ∧
    ∀ row ∈ rs.map mkCombinedRow, row.map Prod.fst = combinedKeys := by
  obtain ⟨r0, rest, rfl⟩ := List.exists_cons_of_ne_nil h
  constructor
  · have hh : (mkCombinedRow r0).map Prod.fst = combinedKeys := rfl
    simp only [List.map_cons, writeCsv, hh, Nat.zero_eq, beq_self_eq_true,
      Bool.or_true, if_true, List.map_map]
    rfl
  · intro row hrow
    obtain ⟨r, _, rfl⟩ := List.mem_map.mp hrow
    rfl

/-- Witness for C8 at a one-row table with an already-existing output file. -/
theorem csv_header_and_key_set_witness :
    writeCsv true [mkCombinedRow
      ⟨"d1", "arch", "256", "uniform", "0.5", "100", "2000.0", "73.0",
       "SIGMA", "64", "", "1024"⟩] =
      combinedKeys ::
        [combinedKeys.map (fun k => rowGet (mkCombinedRow
          ⟨"d1", "arch", "256", "uniform", "0.5", "100", "2000.0", "73.0",
           "SIGMA", "64", "", "1024"⟩) k)] :=
  (csv_header_and_key_set true
    [⟨"d1", "arch", "256", "uniform", "0.5", "100", "2000.0", "73.0",
      "SIGMA", "64", "", "1024"⟩] (by decide)).1

/-! ## CSV round trip (C9) -/

lemma notMem_intercalate_comma {c sep : Char} (hcs : c ≠ sep)
    (row : List (List Char)) (h : ∀ cell ∈ row, c ∉ cell) :
    c ∉ [sep].intercalate row := by
  induction row with
  | nil => simp [List.intercalate]
  | cons x t ih =>
    cases t with
    | nil => simpa [List.intercalate] using h x (by simp)
    | cons y t2 =>
      have hstep : List.intercalate [sep] (x :: y :: t2) =
          x ++ sep :: List.intercalate [sep] (y :: t2) := by
        simp [List.intercalate, List.intersperse_cons_cons, List.flatten]
      rw [hstep]
      intro hc
      rcases List.mem_append.mp hc with hx | hrest
      · exact h x (by simp) hx
      · rcases List.mem_cons.mp hrest with hsep | hmem
        · exact hcs hsep
        · exact ih (fun cell hcell => h cell (List.mem_cons_of_mem x hcell)) hmem

/-- C9: exporting a result table to CSV and re-reading it reproduces exactly
the same rows — the same (parameter point, metric record) cell values as
strings — provided the table is non-empty, each row has at least one cell
and no cell contains a separator (comma or newline). -/
theorem csv_round_trip (table : List (List (List Char)))
    (htne : table ≠ [])
    (hrne : ∀ row ∈ table, row ≠ [])
    (hcell : ∀ row ∈ table, ∀ cell ∈ row, ',' ∉ cell ∧ '\n' ∉ cell) :
    csvParse (csvRender table) = table := by
  rw [csvRender, csvParse]
  have h1 : ∀ l ∈ table.map csvRenderLine, '\n' ∉ l := by
    intro l hl
    obtain ⟨row, hrow, rfl⟩ := List.mem_map.mp hl
    exact notMem_intercalate_comma (by decide) row
      (fun cell hc => (hcell row hrow cell hc).2)
  have h2 : table.map csvRenderLine ≠ [] := by
    cases table with
    | nil => exact absurd rfl htne
    | cons r t => simp
  rw [List.splitOn_intercalate (table.map csvRenderLine) '\n' h1 h2, List.map_map]
  have h3 : ∀ row ∈ table, (csvRenderLine row).splitOn ',' = row := by
    intro row hrow
    exact List.splitOn_intercalate row ','
      (fun cell hc => (hcell row hrow cell hc).1) (hrne row hrow)
  calc table.map ((fun line => line.splitOn ',') ∘ csvRenderLine)
      = table.map id := List.map_congr_left (fun row hrow => h3 row hrow)
    _ = table := List.map_id table

/-- Witness for C9 at a two-row table (header plus one data row). -/
theorem csv_round_trip_witness :
    csvParse (csvRender [["scheme".data, "cycles".data], ["STC".data, "120".data]]) =
      [["scheme".data, "cycles".data], ["STC".data, "120".data]] :=
  csv_round_trip [["scheme".data, "cycles".data], ["STC".data, "120".data]]
    (by decide) (by decide) (by decide)

/-! ## `arch_sparse_support` is never populated (C10) -/

/-- C10: for every architecture file input — missing file, unparsable YAML,
or any parsed YAML value — `extract_config_from_arch` returns a record whose
`arch_sparse_support` is still `None`: line 98 references the never-imported
`json` module and raises `NameError` after the other fields were assigned,
and the generic handler swallows the exception.  On a well-formed
architecture the other three fields are populated while `arch_sparse_support`
still is not. -/
theorem arch_sparse_support_always_none :
    (∀ file : Option (Except String Y),
      (extract_config_from_arch file).arch_sparse_support = Y.null) ∧
    extract_config_body sampleArchY =
      ⟨Y.s "SIGMA", Y.i 64, Y.null, Y.i 1024⟩ := by
  constructor
  · intro file
    rcases file with _ | f
    · rfl
    rcases f with e | arch
    · rfl
    show (extract_config_body arch).arch_sparse_support = Y.null
    rw [extract_config_body]
    simp only [jsonDumpsLine]
    repeat' split
    all_goals rfl
  · rfl

end Artifact
